import Mathlib

/-!
Verification of the vin-tools submission-analysis repository.

This file gives a shallow embedding of the field-extraction, presence
classification, completeness aggregation, quality-tier, recommendation and
replacement-cost logic found in

  - src/insurance_submission_analyzer_tool.py   (namespace Analyzer)
  - src/submission_completeness_checker.py      (namespace Checker)
  - src/property_valuation_tool.py              (namespace Valuation)

and proves theorems settling the specification claims about that logic.
Python dictionaries are modelled as association lists in insertion order,
Python numbers as rationals, and fallible operations as Option.
-/

/-- JSON-like values: the data model of submission documents.  Objects keep
their fields as an association list in insertion order, mirroring Python
dict semantics. -/
inductive JSON where
  | null : JSON
  | bool (b : Bool) : JSON
  | num (q : ℚ) : JSON
  | str (s : String) : JSON
  | arr (xs : List JSON) : JSON
  | obj (fields : List (String × JSON)) : JSON

/-- First-match lookup in an association list; models Python dict access
(keys are unique in a dict, so first match is the match). -/
def lookupList {α : Type} : List (String × α) → String → Option α
  | [], _ => none
  | (k, v) :: rest, key => if k = key then some v else lookupList rest key

/-- Python truthiness of a JSON value: None, False, 0, empty string, empty
list and empty dict are falsy, everything else is truthy. -/
def pyTruthy : JSON → Bool
  | JSON.null => false
  | JSON.bool b => b
  | JSON.num q => decide (q ≠ 0)
  | JSON.str s => !s.isEmpty
  | JSON.arr xs => !xs.isEmpty
  | JSON.obj fs => !fs.isEmpty

/-- Characters stripped by the Python str.strip default (ASCII whitespace). -/
def pyIsSpace (c : Char) : Bool :=
  c = ' ' || c = Char.ofNat 9 || c = Char.ofNat 10 || c = Char.ofNat 13 ||
  c = Char.ofNat 11 || c = Char.ofNat 12

/-- Whether a string strips to the empty string, i.e. value.strip() == "". -/
def stripIsEmpty (s : String) : Bool :=
  s.toList.all pyIsSpace

/-- Split a character list on a separator; the result always has one more
group than there are separators, so the empty list gives one empty group,
matching Python str.split with an explicit separator. -/
def splitOnChar (sep : Char) : List Char → List (List Char)
  | [] => [[]]
  | c :: rest =>
    let r := splitOnChar sep rest
    if c = sep then [] :: r
    else
      match r with
      | [] => [[c]]
      | g :: gs => (c :: g) :: gs

/-- Python path.split with a one-character separator. -/
def pySplit (s : String) (sep : Char) : List String :=
  (splitOnChar sep s.toList).map (fun g => String.mk g)

/-- Python str.strip(): drop leading and trailing whitespace characters. -/
def pyStrip (cs : List Char) : List Char :=
  ((cs.dropWhile pyIsSpace).reverse.dropWhile pyIsSpace).reverse

/-- Python str.lower() (ASCII, which covers the taxonomy tables). -/
def pyToLower (s : String) : String :=
  String.mk (s.toList.map Char.toLower)

/-- A single quote character, used when rendering Python repr of strings. -/
def squote : String := String.singleton (Char.ofNat 39)

mutual

/-- Python repr of a JSON value.  Numeric rendering is approximated: an
integral rational renders as a Python int would; no claim inspects the
rendered text of a non-integral number or of a nested container. -/
def pyRepr : JSON → String
  | JSON.null => "None"
  | JSON.bool b => if b then "True" else "False"
  | JSON.num q => if q.den = 1 then toString q.num else toString q
  | JSON.str s => squote ++ s ++ squote
  | JSON.arr xs => "[" ++ String.intercalate ", " (pyReprList xs) ++ "]"
  | JSON.obj fs => "\x7b" ++ String.intercalate ", " (pyReprFields fs) ++ "\x7d"

/-- Python repr of each element of a list of JSON values. -/
def pyReprList : List JSON → List String
  | [] => []
  | x :: rest => pyRepr x :: pyReprList rest

/-- Python repr of each key/value pair of an object. -/
def pyReprFields : List (String × JSON) → List String
  | [] => []
  | (k, v) :: rest => (squote ++ k ++ squote ++ ": " ++ pyRepr v) :: pyReprFields rest

end

/-- Python str() of a JSON value: identity on strings, repr elsewhere. -/
def pyStr : JSON → String
  | JSON.str s => s
  | v => pyRepr v

/-- Digit-string value as a rational, reading left to right. -/
def digitsVal (cs : List Char) : ℚ :=
  cs.foldl (fun a c => a * 10 + ((c.toNat - 48 : ℕ) : ℚ)) 0

/-- Python float(s) on a plain decimal literal: optional surrounding
whitespace, optional sign, digits with at most one decimal point.  Exotic
float syntax (exponents, inf, nan) is out of scope of the source data and
resolves to none, as a ValueError does. -/
def parsePyFloat (s : String) : Option ℚ :=
  let cs := pyStrip s.toList
  let signBody : ℚ × List Char :=
    match cs with
    | '-' :: r => (-1, r)
    | '+' :: r => (1, r)
    | r => (1, r)
  match splitOnChar '.' signBody.2 with
  | [ip] =>
    if ip ≠ [] ∧ ip.all Char.isDigit then some (signBody.1 * digitsVal ip) else none
  | [ip, fp] =>
    if (ip ≠ [] ∨ fp ≠ []) ∧ ip.all Char.isDigit ∧ fp.all Char.isDigit then
      some (signBody.1 * (digitsVal ip + digitsVal fp / (10 : ℚ) ^ fp.length))
    else none
  | _ => none

/-- Python float(v) on a JSON value, with ValueError and TypeError modelled
as none: numbers convert, booleans convert to 0 or 1, strings parse as
decimal literals, and every other type is a TypeError. -/
def pyFloat : JSON → Option ℚ
  | JSON.num q => some q
  | JSON.bool b => some (if b then 1 else 0)
  | JSON.str s => parsePyFloat s
  | _ => none

namespace Analyzer

/-- A step of a field-mapping path in the analyzer: a string key into an
object or an integer index into an array (the field_mapping lists mix both,
e.g. ["submission_data", "Common", "Firmographics", "primary_naics_2017", 0, "code"]). -/
inductive PathKey where
  | str (s : String) : PathKey
  | int (i : Int) : PathKey
deriving DecidableEq

/-- Embedding of get_value_from_path: walk the path left to right, stepping
through objects by existing string key and through arrays by in-range
non-negative integer index, and return none as soon as a step does not
apply.  The guards make the except clause of the source unreachable. -/
def getValueFromPath : JSON → List PathKey → Option JSON
  | value, [] => some value
  | JSON.obj fields, PathKey.str k :: rest =>
    (match lookupList fields k with
     | some v2 => getValueFromPath v2 rest
     | none => none)
  | JSON.arr xs, PathKey.int i :: rest =>
    if 0 ≤ i then
      (match xs[i.toNat]? with
       | some v2 => getValueFromPath v2 rest
       | none => none)
    else none
  | _, _ :: _ => none

/-- Resolver written from the specification wording (section 4.1): at each
step, if the current value is a mapping and the key exists, descend; if it
is a sequence and the key is a valid in-range integer index, descend;
otherwise return NOT_FOUND immediately. -/
def resolveSpec : JSON → List PathKey → Option JSON
  | value, [] => some value
  | value, key :: rest =>
    match value, key with
    | JSON.obj fields, PathKey.str k =>
      (match lookupList fields k with
       | some child => resolveSpec child rest
       | none => none)
    | JSON.arr elems, PathKey.int i =>
      if 0 ≤ i ∧ i < (elems.length : Int) then
        (match elems[i.toNat]? with
         | some child => resolveSpec child rest
         | none => none)
      else none
    | _, _ => none

/-- Analyzer configuration: quality thresholds, the three required-element
lists and the field mapping (set_default_config, overridable by
update_config). -/
structure Config where
  highQualityThreshold : ℚ
  goodQualityThreshold : ℚ
  triageElements : List String
  appetiteElements : List String
  clearanceElements : List String
  fieldMapping : List (String × List PathKey)

/-- Presence rules of is_element_present applied to a resolved value (lines
435 to 444 of the analyzer): None and a path miss are absent, a string is
absent iff it strips to empty, a list or dict is absent iff empty, and any
other value, including the number 0 and False, is present. -/
def pyPresent : Option JSON → Bool
  | none => false
  | some JSON.null => false
  | some (JSON.str s) => !stripIsEmpty s
  | some (JSON.arr xs) => !xs.isEmpty
  | some (JSON.obj fs) => !fs.isEmpty
  | some _ => true

/-- Whether a resolved value is a non-empty dict, the test of the
100_pct_limit special case in is_element_present. -/
def isNonEmptyObj : Option JSON → Bool
  | some (JSON.obj (_ :: _)) => true
  | _ => false

/-- Embedding of is_element_present: a missing or empty mapping entry is
absent; otherwise resolve the path and classify.  The 100_pct_limit special
case precedes the general rules, as in the source. -/
def isElementPresent (cfg : Config) (data : JSON) (element : String) : Bool :=
  match lookupList cfg.fieldMapping element with
  | none => false
  | some pathList =>
    if pathList.isEmpty then false
    else
      let value := getValueFromPath data pathList
      if element == "100_pct_limit" && isNonEmptyObj value then true
      else pyPresent value

/-- Embedding of get_accuracy_score: only paths ending in the literal
"value" have a score; the score path replaces that last segment with
"score"; a falsy resolved score (None, 0, empty string) gives none, and a
conversion failure (ValueError, TypeError) also gives none. -/
def getAccuracyScore (cfg : Config) (data : JSON) (element : String) : Option ℚ :=
  match lookupList cfg.fieldMapping element with
  | none => none
  | some pathList =>
    if pathList.isEmpty then none
    else if pathList.getLast? ≠ some (PathKey.str "value") then none
    else
      let scorePath := pathList.dropLast ++ [PathKey.str "score"]
      match getValueFromPath data scorePath with
      | none => none
      | some v => if pyTruthy v then pyFloat v else none

/-- Elements of a category list that classify present (the list
comprehensions at lines 518 to 520 of analyze_submission). -/
def presentElements (cfg : Config) (data : JSON) (elems : List String) : List String :=
  elems.filter (fun e => isElementPresent cfg data e)

/-- Elements of a category list that are not present (lines 533 to 535). -/
def missingElements (cfg : Config) (data : JSON) (elems : List String) : List String :=
  elems.filter (fun e => !isElementPresent cfg data e)

/-- Category completeness percentage (lines 523 to 525): an empty category
list short-circuits to 100. -/
def categoryPercent (cfg : Config) (data : JSON) (elems : List String) : ℚ :=
  if elems.isEmpty then 100
  else ((presentElements cfg data elems).length : ℚ) / (elems.length : ℚ) * 100

/-- Overall completeness percentage (lines 527 to 530): total present over
total required, 100 when nothing is required. -/
def overallPercent (cfg : Config) (data : JSON) : ℚ :=
  let totalPresent := (presentElements cfg data cfg.triageElements).length
    + (presentElements cfg data cfg.appetiteElements).length
    + (presentElements cfg data cfg.clearanceElements).length
  let totalRequired := cfg.triageElements.length + cfg.appetiteElements.length
    + cfg.clearanceElements.length
  if totalRequired = 0 then 100
  else (totalPresent : ℚ) / (totalRequired : ℚ) * 100

/-- The distinct required elements across the three categories; analysis
iterates the Python set of them, whose order does not affect any result
proved here. -/
def allElements (cfg : Config) : List String :=
  (cfg.triageElements ++ cfg.appetiteElements ++ cfg.clearanceElements).dedup

/-- Embedding of the field_level_accuracy map (lines 537 to 550): an entry
per element that is present and has an available accuracy score. -/
def fieldLevelAccuracy (cfg : Config) (data : JSON) : List (String × ℚ) :=
  (allElements cfg).filterMap (fun e =>
    if isElementPresent cfg data e then
      match getAccuracyScore cfg data e with
      | some sc => some (e, sc)
      | none => none
    else none)

/-- Average accuracy (line 553): mean of the scores in field_level_accuracy,
0 when no field has a score. -/
def avgAccuracy (cfg : Config) (data : JSON) : ℚ :=
  let fla := fieldLevelAccuracy cfg data
  if fla.isEmpty then 0
  else ((fla.map Prod.snd).sum) / (fla.length : ℚ)

/-- Quality-tier decision (lines 556 to 561): High needs average accuracy at
or above the high threshold and overall completeness at least 90; Good needs
the good threshold and completeness at least 70; otherwise Needs
Improvement. -/
def qualityTier (highT goodT avg overall : ℚ) : String :=
  if avg ≥ highT ∧ overall ≥ 90 then "High Quality"
  else if avg ≥ goodT ∧ overall ≥ 70 then "Good Quality"
  else "Needs Improvement"

/-- Tier of a submission as analyze_submission computes it. -/
def submissionQualityTier (cfg : Config) (data : JSON) : String :=
  qualityTier cfg.highQualityThreshold cfg.goodQualityThreshold
    (avgAccuracy cfg data) (overallPercent cfg data)

/-- Embedding of _get_next_steps: one message per non-empty missing list in
the fixed order appetite, triage, clearance; a single proceed message when
nothing is missing; sliced to at most three entries. -/
def getNextSteps (triageMissing appetiteMissing clearanceMissing : List String) : List String :=
  let steps :=
    (if appetiteMissing.isEmpty then [] else
      ["Obtain missing appetite data: " ++ String.intercalate ", " appetiteMissing]) ++
    (if triageMissing.isEmpty then [] else
      ["Complete triage information: " ++ String.intercalate ", " triageMissing]) ++
    (if clearanceMissing.isEmpty then [] else
      ["Provide clearance details: " ++ String.intercalate ", " clearanceMissing]) ++
    (if appetiteMissing.isEmpty && triageMissing.isEmpty && clearanceMissing.isEmpty then
      ["All required data is present. Proceed with underwriting review."] else [])
  steps.take 3

/-- Default analyzer configuration (set_default_config): thresholds 90 and
80, the three required-element lists and the field mapping. -/
def defaultConfig : Config where
  highQualityThreshold := 90
  goodQualityThreshold := 80
  triageElements :=
    ["company_name", "website", "address", "city", "state", "postal_code",
     "primary_naics_code", "primary_naics_description", "primary_sic_code",
     "legal_entity_type", "year_in_business", "policy_inception_date",
     "end_date", "broker_contact_points", "coverages", "product",
     "100_pct_limit", "broker_name", "broker_address", "broker_city",
     "broker_post_code", "broker_state", "broker_email", "quote_target_date"]
  appetiteElements :=
    ["company_name", "address", "city", "state", "postal_code",
     "year_in_business", "policy_inception_date", "end_date",
     "coverages", "product"]
  clearanceElements :=
    ["company_name", "address", "primary_naics_code", "primary_naics_description",
     "primary_sic_code", "policy_inception_date", "document_date", "broker_name",
     "broker_address", "broker_city", "broker_post_code", "broker_state",
     "broker_email", "submission_received_date", "target_premium"]
  fieldMapping :=
    [("company_name", [.str "submission_data", .str "Common", .str "Firmographics", .str "company_name", .str "value"]),
     ("website", [.str "submission_data", .str "Common", .str "Firmographics", .str "website", .str "value"]),
     ("address", [.str "submission_data", .str "Common", .str "Firmographics", .str "address_1", .str "value"]),
     ("city", [.str "submission_data", .str "Common", .str "Firmographics", .str "city", .str "value"]),
     ("state", [.str "submission_data", .str "Common", .str "Firmographics", .str "state", .str "value"]),
     ("postal_code", [.str "submission_data", .str "Common", .str "Firmographics", .str "postal_code", .str "value"]),
     ("primary_naics_code", [.str "submission_data", .str "Common", .str "Firmographics", .str "primary_naics_2017", .int 0, .str "code"]),
     ("primary_naics_description", [.str "submission_data", .str "Common", .str "Firmographics", .str "primary_naics_2017", .int 0, .str "desc"]),
     ("primary_sic_code", [.str "submission_data", .str "Common", .str "Firmographics", .str "primary_sic", .int 0, .str "code"]),
     ("legal_entity_type", [.str "submission_data", .str "Common", .str "Legal_Entity_Type"]),
     ("year_in_business", [.str "submission_data", .str "Common", .str "Firmographics", .str "year_in_business", .str "value"]),
     ("policy_inception_date", [.str "submission_data", .str "Common", .str "Product Details", .str "policy_inception_date", .str "value"]),
     ("end_date", [.str "submission_data", .str "Common", .str "Product Details", .str "end_date", .str "value"]),
     ("document_date", [.str "submission_data", .str "Common", .str "Product Details", .str "document_date", .str "value"]),
     ("broker_contact_points", [.str "submission_data", .str "Common", .str "Broker Details", .str "broker_contact_points", .str "value"]),
     ("coverages", [.str "submission_data", .str "Common", .str "Product Details", .str "normalized_product"]),
     ("product", [.str "submission_data", .str "Common", .str "Product Details", .str "lob", .str "value"]),
     ("100_pct_limit", [.str "submission_data", .str "Common", .str "Limits and Coverages", .str "100_pct_limit"]),
     ("broker_name", [.str "submission_data", .str "Common", .str "Broker Details", .str "broker_name", .str "value"]),
     ("broker_address", [.str "submission_data", .str "Common", .str "Broker Details", .str "broker_address", .str "value"]),
     ("broker_city", [.str "submission_data", .str "Common", .str "Broker Details", .str "broker_city", .str "value"]),
     ("broker_post_code", [.str "submission_data", .str "Common", .str "Broker Details", .str "broker_postal_code", .str "value"]),
     ("broker_state", [.str "submission_data", .str "Common", .str "Broker Details", .str "broker_state", .str "value"]),
     ("broker_email", [.str "submission_data", .str "Common", .str "Broker Details", .str "broker_email", .str "value"]),
     ("quote_target_date", [.str "submission_data", .str "Common", .str "Firmographics", .str "quote_target_date", .str "value"]),
     ("submission_received_date", [.str "submission_data", .str "Common", .str "Product Details", .str "submission_received_date", .str "value"]),
     ("target_premium", [.str "submission_data", .str "Common", .str "Product Details", .str "target_premium", .str "value"])]

end Analyzer

namespace Checker

/-- Result record of _analyze_fields for one required field. -/
structure FieldAnalysis where
  fieldName : String
  categories : List String
  status : String
  confidenceScore : ℚ
  value : String
  source : String

/-- The _required_elements table: field name to the categories (T, A, C or
Required) the field serves. -/
def requiredElements : List (String × List String) :=
  [("company_name", ["T", "A", "C"]),
   ("website", ["Required"]),
   ("address", ["T", "A", "C"]),
   ("city", ["T", "A"]),
   ("state", ["T", "A"]),
   ("postal_code", ["T", "A"]),
   ("primary_naics_2017", ["T", "C"]),
   ("naics_desc", ["T", "C"]),
   ("primary_sic", ["T", "C"]),
   ("legal_entity_type", ["T"]),
   ("year_in_business", ["T", "A"]),
   ("policy_inception_date", ["T", "A", "C"]),
   ("end_date", ["T", "A", "C"]),
   ("coverages", ["T", "A"]),
   ("product", ["T", "A"]),
   ("100_pct_limit", ["T"]),
   ("broker_name", ["T", "C"]),
   ("broker_address", ["T", "C"]),
   ("broker_city", ["T", "C"]),
   ("broker_postal_code", ["T", "C"]),
   ("broker_state", ["T", "C"]),
   ("broker_email", ["T", "C"])]

/-- The _field_mappings table: field name to its ordered list of dotted
candidate paths. -/
def fieldMappings : List (String × List String) :=
  [("company_name", ["Common.Firmographics.company_name"]),
   ("website", ["Common.Firmographics.website"]),
   ("address", ["Common.Firmographics.address_1"]),
   ("city", ["Common.Firmographics.city"]),
   ("state", ["Common.Firmographics.state"]),
   ("postal_code", ["Common.Firmographics.postal_code"]),
   ("primary_naics_2017", ["Common.Firmographics.primary_naics_2017"]),
   ("naics_desc", ["Common.Firmographics.primary_naics_2017"]),
   ("primary_sic", ["Common.Firmographics.primary_sic"]),
   ("legal_entity_type", ["Common.Legal_Entity_Type"]),
   ("year_in_business", ["Common.Firmographics.year_in_business"]),
   ("policy_inception_date", ["Common.Product_Details.policy_inception_date"]),
   ("end_date", ["Common.Product_Details.end_date"]),
   ("coverages", ["Common.Limits_and_Coverages.normalized_coverage"]),
   ("product", ["Common.Product_Details.normalized_product"]),
   ("100_pct_limit", ["Common.Limits_and_Coverages.100_pct_limit"]),
   ("broker_name", ["Common.Broker_Details.broker_name"]),
   ("broker_address", ["Common.Broker_Details.broker_address"]),
   ("broker_city", ["Common.Broker_Details.broker_city"]),
   ("broker_postal_code", ["Common.Broker_Details.broker_postal_code"]),
   ("broker_state", ["Common.Broker_Details.broker_state"]),
   ("broker_email", ["Common.Broker_Details.broker_email"])]

/-- Dot-path navigation of _get_nested_value: descend through dicts only, by
existing key; any other shape at an intermediate step is a miss. -/
def navigate : JSON → List String → Option JSON
  | v, [] => some v
  | JSON.obj fields, k :: rest =>
    (match lookupList fields k with
     | some v2 => navigate v2 rest
     | none => none)
  | _, _ :: _ => none

/-- Value interpretation of _get_nested_value (lines 801 to 833) once the
path has resolved: dicts with a "value" key unwrap it, non-empty arrays of
dicts extract a classification description, other non-empty arrays and
truthy scalars stringify, dicts without "value" count as "Present" when some
member dict has a truthy "value", and every falsy outcome is a miss. -/
def interpretValue (current : JSON) : Option (JSON × JSON) :=
  match current with
  | JSON.obj fs =>
    (match lookupList fs "value" with
     | some value =>
       let score := (lookupList fs "score").getD (JSON.str "")
       (match value with
        | JSON.arr (first :: restArr) =>
          (match first with
           | JSON.obj ffs =>
             (match lookupList ffs "naics_desc" with
              | some d => some (d, score)
              | none =>
                (match lookupList ffs "sic_desc" with
                 | some d => some (d, score)
                 | none => some (JSON.str (pyStr (JSON.arr (first :: restArr))), score)))
           | _ => some (JSON.str (pyStr (JSON.arr (first :: restArr))), score))
        | _ => if pyTruthy value then some (value, score) else none)
     | none =>
       if fs.any (fun kv =>
            match kv.2 with
            | JSON.obj inner => pyTruthy ((lookupList inner "value").getD JSON.null)
            | _ => false) then
         some (JSON.str "Present", JSON.str "")
       else none)
  | JSON.arr xs =>
    if xs.isEmpty then none else some (JSON.str (pyStr (JSON.arr xs)), JSON.str "")
  | v => if pyTruthy v then some (JSON.str (pyStr v), JSON.str "") else none

/-- Embedding of _get_nested_value: split the dotted path, navigate, then
interpret the reached value; none models the (None, None) return. -/
def getNestedValue (data : JSON) (path : String) : Option (JSON × JSON) :=
  match navigate data (pySplit path '.') with
  | none => none
  | some current => interpretValue current

/-- Path iteration of _extract_field_value: the first path whose extracted
value is not None wins; later paths are never consulted. -/
def tryPaths (data : JSON) : List String → Option (JSON × JSON)
  | [] => none
  | p :: rest =>
    match getNestedValue data p with
    | some (JSON.null, _) => tryPaths data rest
    | some (v, s) => some (v, s)
    | none => tryPaths data rest

/-- Embedding of _extract_field_value: unmapped fields extract nothing,
mapped fields try their candidate paths in order. -/
def extractFieldValue (data : JSON) (fieldName : String) : Option (JSON × JSON) :=
  match lookupList fieldMappings fieldName with
  | none => none
  | some paths => tryPaths data paths

/-- Analysis of one required field (_analyze_fields loop body): a
user-modified field short-circuits to confidence 100 and source
user_modified without consulting the data; otherwise the extracted value is
kept when truthy.  The ValueError a malformed truthy score string would
raise in float(score) is not modelled; no claim exercises it. -/
def analyzeField (data : JSON) (mods : List (String × JSON))
    (fieldName : String) (categories : List String) : FieldAnalysis :=
  match lookupList mods fieldName with
  | some newValue =>
    { fieldName := fieldName, categories := categories, status := "complete",
      confidenceScore := 100, value := pyStr newValue, source := "user_modified" }
  | none =>
    match extractFieldValue data fieldName with
    | some (v, s) =>
      if pyTruthy v then
        { fieldName := fieldName, categories := categories, status := "complete",
          confidenceScore := if pyTruthy s then (pyFloat s).getD 0 else 0,
          value := pyStr v, source := "original" }
      else
        { fieldName := fieldName, categories := categories, status := "missing",
          confidenceScore := 0, value := "", source := "original" }
    | none =>
      { fieldName := fieldName, categories := categories, status := "missing",
        confidenceScore := 0, value := "", source := "original" }

/-- Embedding of _analyze_fields: analyze every required field in table
order. -/
def analyzeFields (data : JSON) (mods : List (String × JSON)) : List FieldAnalysis :=
  requiredElements.map (fun fc => analyzeField data mods fc.1 fc.2)

/-- Association-list update preserving insertion order, modelling Python
dict item assignment. -/
def objSet : List (String × JSON) → String → JSON → List (String × JSON)
  | [], k, v => [(k, v)]
  | (k2, v2) :: rest, k, v =>
    if k2 = k then (k2, v) :: rest else (k2, v2) :: objSet rest k v

/-- Embedding of _set_nested_value: descend along the keys, creating empty
dicts for missing intermediate keys; none models the TypeError raised when
an intermediate or the root is not a dict. -/
def setNested : JSON → List String → JSON → Option JSON
  | JSON.obj fs, [k], v => some (JSON.obj (objSet fs k v))
  | JSON.obj fs, k :: rest, v =>
    (match setNested ((lookupList fs k).getD (JSON.obj [])) rest v with
     | some child2 => some (JSON.obj (objSet fs k child2))
     | none => none)
  | _, _, _ => none

/-- Embedding of _apply_user_modifications: for each modification whose
field is mapped, write the node with value and a None score at every
candidate path. -/
def applyUserModifications (data : JSON) (mods : List (String × JSON)) : Option JSON :=
  mods.foldlM (fun d fm =>
    match lookupList fieldMappings fm.1 with
    | none => some d
    | some paths =>
      paths.foldlM (fun d2 p =>
        setNested d2 (pySplit p '.')
          (JSON.obj [("value", fm.2), ("score", JSON.null)])) d) data

/-- Python round(x, 1).  Mathlib round is half away from zero while Python
rounds half to even; no claim evaluates the function at a tie. -/
def roundTo1 (q : ℚ) : ℚ :=
  ((round (q * 10) : ℤ) : ℚ) / 10

/-- Per-category completeness result of calculate_category_completeness. -/
structure CategoryCompleteness where
  percentage : ℚ
  completeCount : ℕ
  totalRequired : ℕ
  missingElements : List String

/-- Embedding of calculate_category_completeness (lines 880 to 892 of the
checker): complete count over total, and percentage 0, not 100, when the
category has no required fields. -/
def calculateCategoryCompleteness (fields : List FieldAnalysis) : CategoryCompleteness :=
  let completeCount := (fields.filter (fun f => f.status == "complete")).length
  let totalRequired := fields.length
  let percentage : ℚ :=
    if 0 < totalRequired then (completeCount : ℚ) / (totalRequired : ℚ) * 100 else 0
  { percentage := roundTo1 percentage
    completeCount := completeCount
    totalRequired := totalRequired
    missingElements := (fields.filter (fun f => f.status != "complete")).map (fun f => f.fieldName) }

end Checker

namespace Valuation

/-- Construction cost base rates by building class in dollars per square
foot (_construction_costs, in source order). -/
def constructionCosts : List (String × ℚ) :=
  [("Frame", 125), ("Joisted Masonry", 145), ("Noncombustible", 170),
   ("Masonry Noncombustible", 190), ("Modified Fire Resistive", 220),
   ("Fire Resistive", 250), ("Wood Frame", 125), ("Masonry", 145),
   ("Steel", 170), ("Concrete", 190), ("Reinforced Concrete", 250)]

/-- Regional cost multipliers by state (_state_multipliers). -/
def stateMultipliers : List (String × ℚ) :=
  [("AL", 0.87), ("AK", 1.23), ("AZ", 0.92), ("AR", 0.85), ("CA", 1.25),
   ("CO", 1.05), ("CT", 1.15), ("DE", 1.07), ("FL", 0.95), ("GA", 0.90),
   ("HI", 1.30), ("ID", 0.92), ("IL", 1.03), ("IN", 0.95), ("IA", 0.93),
   ("KS", 0.90), ("KY", 0.93), ("LA", 0.88), ("ME", 1.02), ("MD", 1.08),
   ("MA", 1.18), ("MI", 1.00), ("MN", 1.03), ("MS", 0.85), ("MO", 0.95),
   ("MT", 0.95), ("NE", 0.90), ("NV", 1.05), ("NH", 1.05), ("NJ", 1.15),
   ("NM", 0.90), ("NY", 1.20), ("NC", 0.90), ("ND", 0.95), ("OH", 0.98),
   ("OK", 0.87), ("OR", 1.08), ("PA", 1.05), ("RI", 1.10), ("SC", 0.88),
   ("SD", 0.90), ("TN", 0.88), ("TX", 0.90), ("UT", 0.95), ("VT", 1.03),
   ("VA", 0.95), ("WA", 1.10), ("WV", 0.97), ("WI", 1.02), ("WY", 0.95),
   ("DC", 1.15)]

/-- Occupancy type risk factors (_occupancy_factors). -/
def occupancyFactors : List (String × ℚ) :=
  [("Office", 1.0), ("Retail", 1.1), ("Warehouse", 0.85), ("Manufacturing", 1.15),
   ("Healthcare", 1.3), ("Hospitality", 1.2), ("Education", 1.25),
   ("Restaurant", 1.15), ("Industrial", 1.10), ("Residential", 1.05),
   ("Mixed Use", 1.08), ("Apartment", 1.05), ("Shopping Center", 1.12),
   ("Hotel", 1.2), ("Medical", 1.25), ("Storage", 0.85)]

/-- Age adjustment factors (_age_brackets). -/
def ageBrackets : List (String × ℚ) :=
  [("0-10", 1.0), ("11-25", 1.05), ("26-50", 1.10), ("51-75", 1.15), ("76+", 1.20)]

/-- Risk threshold constants (_risk_thresholds). -/
def varianceHighThreshold : ℚ := 25

/-- Underinsurance threshold as a percentage of calculated value. -/
def underinsuranceThreshold : ℚ := 70

/-- Overinsurance threshold as a percentage of calculated value. -/
def overinsuranceThreshold : ℚ := 130

/-- High content-to-building value ratio threshold. -/
def contentRatioHighThreshold : ℚ := 0.8

/-- Low content-to-building value ratio threshold. -/
def contentRatioLowThreshold : ℚ := 0.2

/-- Table lookup with a default, modelling Python dict.get(key, default). -/
def lookupD (l : List (String × ℚ)) (k : String) (d : ℚ) : ℚ :=
  (lookupList l k).getD d

/-- Whether a character list occurs contiguously inside another. -/
def listInfixOf (needle : List Char) : List Char → Bool
  | [] => needle.isEmpty
  | c :: rest => needle.isPrefixOf (c :: rest) || listInfixOf needle rest

/-- Whether the needle occurs as a substring of the haystack, modelling the
Python in operator on strings. -/
def strContainsStr (hay needle : String) : Bool :=
  listInfixOf needle.toList hay.toList

/-- Embedding of _find_closest_match: empty input falls back to the first
option; otherwise exact case-insensitive match, then substring containment
in either direction, then the first option. -/
def findClosestMatch (value : String) (options : List String) : String :=
  if value == "" then options.headD ""
  else
    let v := pyToLower value
    match options.find? (fun o => pyToLower o == v) with
    | some o => o
    | none =>
      match options.find? (fun o => strContainsStr (pyToLower o) v || strContainsStr v (pyToLower o)) with
      | some o => o
      | none => options.headD ""

/-- Embedding of _get_age_factor: bracket chosen by building age. -/
def getAgeFactor (buildingAge : ℚ) : ℚ :=
  if buildingAge ≤ 10 then lookupD ageBrackets "0-10" 1
  else if buildingAge ≤ 25 then lookupD ageBrackets "11-25" 1
  else if buildingAge ≤ 50 then lookupD ageBrackets "26-50" 1
  else if buildingAge ≤ 75 then lookupD ageBrackets "51-75" 1
  else lookupD ageBrackets "76+" 1

/-- Embedding of _identify_risk_flags, in the append order of the source. -/
def identifyRiskFlags (buildingValue calculatedValue squareFootage buildingAge
    contentValue roofAge : ℚ) : List String :=
  (if buildingValue > 0 ∧ calculatedValue > 0 then
    let variancePercentage := ((calculatedValue - buildingValue) / buildingValue) * 100
    (if |variancePercentage| > varianceHighThreshold then ["HIGH_VARIANCE"] else []) ++
    (if buildingValue < calculatedValue * (underinsuranceThreshold / 100) then
      ["POTENTIAL_UNDERINSURANCE"] else []) ++
    (if buildingValue > calculatedValue * (overinsuranceThreshold / 100) then
      ["POTENTIAL_OVERINSURANCE"] else [])
  else []) ++
  (if squareFootage ≤ 0 then ["MISSING_SQUARE_FOOTAGE"] else []) ++
  (if buildingValue ≤ 0 then ["MISSING_BUILDING_VALUE"] else []) ++
  (if buildingAge > 50 then ["OLDER_CONSTRUCTION"] else []) ++
  (if roofAge > 20 then ["AGING_ROOF"] else []) ++
  (if buildingValue > 0 ∧ contentValue > 0 then
    let contentRatio := contentValue / buildingValue
    if contentRatio > contentRatioHighThreshold then ["HIGH_CONTENT_RATIO"]
    else if contentRatio < contentRatioLowThreshold ∧ buildingValue > 1000000 then
      ["LOW_CONTENT_RATIO"]
    else []
  else [])

/-- Per-property inputs of the valuation loop in run_sync, already extracted
by the _get_numeric_value, _extract_value, _extract_boolean and
_extract_state helpers (numeric misses default to 0, text misses to the
empty string). -/
structure PropertyInputs where
  buildingValue : ℚ
  squareFootage : ℚ
  constructionType : String
  yearBuilt : ℚ
  occupancy : String
  sprinklered : Bool
  state : String
  contentValue : ℚ
  roofAge : ℚ

/-- Result of the per-property replacement-cost computation. -/
structure ValuationCore where
  calculatedValue : ℚ
  riskFlags : List String
  matchedConstruction : String
  matchedOccupancy : String
  buildingAge : ℚ
  variancePercentage : ℚ

/-- Embedding of the replacement-cost computation of run_sync (lines 488 to
544): with no usable square footage the reported value is kept and only the
MISSING_SQUARE_FOOTAGE flag is raised; otherwise the cost formula applies
and flags come from _identify_risk_flags, with MISSING_BUILDING_VALUE
appended again when the reported value is absent. -/
def valuationCore (currentYear : ℚ) (p : PropertyInputs) : ValuationCore :=
  let buildingAge : ℚ := if p.yearBuilt > 0 then currentYear - p.yearBuilt else 20
  if p.squareFootage ≤ 0 then
    let calculatedValue := p.buildingValue
    let riskFlags := ["MISSING_SQUARE_FOOTAGE"]
    let variancePercentage : ℚ :=
      if p.buildingValue > 0 then
        ((calculatedValue - p.buildingValue) / p.buildingValue) * 100
      else 0
    { calculatedValue := calculatedValue
      riskFlags := riskFlags
      matchedConstruction := "Unknown"
      matchedOccupancy := "Unknown"
      buildingAge := buildingAge
      variancePercentage := variancePercentage }
  else
    let matchedConstruction := findClosestMatch p.constructionType (constructionCosts.map Prod.fst)
    let matchedOccupancy := findClosestMatch p.occupancy (occupancyFactors.map Prod.fst)
    let ageFactor := getAgeFactor buildingAge
    let baseCostPerSqft := lookupD constructionCosts matchedConstruction 125
    let regionalMultiplier := if p.state ≠ "" then lookupD stateMultipliers p.state 1 else 1
    let occupancyFactor := lookupD occupancyFactors matchedOccupancy 1
    let sprinklerFactor : ℚ := if p.sprinklered then 0.95 else 1
    let calculatedValue := p.squareFootage * baseCostPerSqft * regionalMultiplier
      * occupancyFactor * ageFactor * sprinklerFactor
    let riskFlags := identifyRiskFlags p.buildingValue calculatedValue p.squareFootage
      buildingAge p.contentValue p.roofAge
    let variancePercentage : ℚ :=
      if p.buildingValue > 0 then
        ((calculatedValue - p.buildingValue) / p.buildingValue) * 100
      else 0
    let riskFlags :=
      if p.buildingValue > 0 then riskFlags else riskFlags ++ ["MISSING_BUILDING_VALUE"]
    { calculatedValue := calculatedValue
      riskFlags := riskFlags
      matchedConstruction := matchedConstruction
      matchedOccupancy := matchedOccupancy
      buildingAge := buildingAge
      variancePercentage := variancePercentage }

end Valuation

/-! Concrete inputs used by counterexamples and witnesses. -/

/-- A submission whose company_name node carries the value 0 with a score. -/
def dataZero : JSON :=
  JSON.obj [("Common", JSON.obj [("Firmographics", JSON.obj
    [("company_name", JSON.obj [("value", JSON.num 0), ("score", JSON.str "95")])])])]

/-- A submission whose company_name node carries a whitespace-only string. -/
def dataWS : JSON :=
  JSON.obj [("Common", JSON.obj [("Firmographics", JSON.obj
    [("company_name", JSON.obj [("value", JSON.str "   "), ("score", JSON.str "95")])])])]

/-- A document with two resolvable dotted paths holding contradictory
values. -/
def dataFirstWins : JSON :=
  JSON.obj [("a", JSON.obj [("b", JSON.obj [("value", JSON.str "first"), ("score", JSON.str "90")])]),
            ("c", JSON.obj [("d", JSON.obj [("value", JSON.str "second"), ("score", JSON.str "10")])])]

/-- A user modification overriding company_name. -/
def modsAcme : List (String × JSON) := [("company_name", JSON.str "Acme Corp")]

/-- The document produced by applying modsAcme to an empty submission. -/
def dataAcme : JSON :=
  JSON.obj [("Common", JSON.obj [("Firmographics", JSON.obj
    [("company_name", JSON.obj [("value", JSON.str "Acme Corp"), ("score", JSON.null)])])])]

/-- A one-field analyzer configuration whose score path resolves to 0. -/
def cfgScore : Analyzer.Config :=
  { highQualityThreshold := 90, goodQualityThreshold := 80,
    triageElements := ["x"], appetiteElements := [], clearanceElements := [],
    fieldMapping := [("x", [Analyzer.PathKey.str "a", Analyzer.PathKey.str "value"])] }

/-- Data for cfgScore: a present value whose score is the number 0. -/
def dataScoreZero : JSON :=
  JSON.obj [("a", JSON.obj [("value", JSON.str "hello"), ("score", JSON.num 0)])]

/-- A one-field analyzer configuration with a single-segment path. -/
def cfgPresence : Analyzer.Config :=
  { highQualityThreshold := 90, goodQualityThreshold := 80,
    triageElements := ["x"], appetiteElements := [], clearanceElements := [],
    fieldMapping := [("x", [Analyzer.PathKey.str "a"])] }

/-- Data for cfgPresence: the mapped path resolves to the number 0. -/
def dataPresence : JSON := JSON.obj [("a", JSON.num 0)]

/-- Property inputs with no square footage reported. -/
def propertyNoSqft : Valuation.PropertyInputs :=
  { buildingValue := 750000, squareFootage := 0, constructionType := "Frame",
    yearBuilt := 2015, occupancy := "Office", sprinklered := true, state := "CA",
    contentValue := 100000, roofAge := 5 }

/-- The fixed property inputs of the replacement-cost round-trip check:
10000 square feet, Frame construction, Illinois, Office occupancy, built
2020 (age bracket 0 to 10 at current year 2024), unsprinklered. -/
def propertyFixed : Valuation.PropertyInputs :=
  { buildingValue := 1000000, squareFootage := 10000, constructionType := "Frame",
    yearBuilt := 2020, occupancy := "Office", sprinklered := false, state := "IL",
    contentValue := 0, roofAge := 0 }

/-! Theorems settling the claims. -/

/-- C1 counterexample: the completeness checker computes percentage 0, not
100, for a category whose required-field list is empty, so the claim that
both tools compute 100 is false. -/
theorem checker_empty_category_not_hundred :
    (Checker.calculateCategoryCompleteness []).totalRequired = 0 ∧
    (Checker.calculateCategoryCompleteness []).percentage ≠ 100 := by
  refine ⟨rfl, ?_⟩
  norm_num [Checker.calculateCategoryCompleteness, Checker.roundTo1]

/-- C1, amended: for an empty required-element list the analyzer computes
category percentage 100, while the completeness checker computes 0. -/
theorem empty_category_analyzer_hundred_checker_zero :
    (∀ (cfg : Analyzer.Config) (data : JSON), Analyzer.categoryPercent cfg data [] = 100) ∧
    (Checker.calculateCategoryCompleteness []).percentage = 0 := by
  refine ⟨fun cfg data => rfl, ?_⟩
  norm_num [Checker.calculateCategoryCompleteness, Checker.roundTo1]

/-- C2: the overall quality tier is High Quality exactly when average
accuracy reaches the high threshold and overall completeness reaches 90,
Good Quality exactly when it is not High but average accuracy reaches the
good threshold and completeness reaches 70, and Needs Improvement
otherwise; in particular average 95 with completeness 60 at the default
thresholds yields Needs Improvement. -/
theorem quality_tier_characterization :
    (∀ (cfg : Analyzer.Config) (data : JSON),
      (Analyzer.submissionQualityTier cfg data = "High Quality" ↔
        (Analyzer.avgAccuracy cfg data ≥ cfg.highQualityThreshold ∧
         Analyzer.overallPercent cfg data ≥ 90)) ∧
      (Analyzer.submissionQualityTier cfg data = "Good Quality" ↔
        (¬(Analyzer.avgAccuracy cfg data ≥ cfg.highQualityThreshold ∧
           Analyzer.overallPercent cfg data ≥ 90) ∧
         (Analyzer.avgAccuracy cfg data ≥ cfg.goodQualityThreshold ∧
          Analyzer.overallPercent cfg data ≥ 70))) ∧
      (Analyzer.submissionQualityTier cfg data = "Needs Improvement" ↔
        (¬(Analyzer.avgAccuracy cfg data ≥ cfg.highQualityThreshold ∧
           Analyzer.overallPercent cfg data ≥ 90) ∧
         ¬(Analyzer.avgAccuracy cfg data ≥ cfg.goodQualityThreshold ∧
           Analyzer.overallPercent cfg data ≥ 70)))) ∧
    Analyzer.qualityTier Analyzer.defaultConfig.highQualityThreshold
      Analyzer.defaultConfig.goodQualityThreshold 95 60 = "Needs Improvement" := by
  constructor
  · intro cfg data
    unfold Analyzer.submissionQualityTier Analyzer.qualityTier
    by_cases h1 : Analyzer.avgAccuracy cfg data ≥ cfg.highQualityThreshold ∧
        Analyzer.overallPercent cfg data ≥ 90
    · rw [if_pos h1]
      refine ⟨by simp [h1], ?_, ?_⟩
      · exact ⟨fun h => absurd h (by decide), fun h => absurd h1 h.1⟩
      · exact ⟨fun h => absurd h (by decide), fun h => absurd h1 h.1⟩
    · rw [if_neg h1]
      by_cases h2 : Analyzer.avgAccuracy cfg data ≥ cfg.goodQualityThreshold ∧
          Analyzer.overallPercent cfg data ≥ 70
      · rw [if_pos h2]
        refine ⟨?_, by simp [h1, h2], ?_⟩
        · exact ⟨fun h => absurd h (by decide), fun h => absurd h h1⟩
        · exact ⟨fun h => absurd h (by decide), fun h => absurd h2 h.2⟩
      · rw [if_neg h2]
        refine ⟨?_, ?_, by simp [h1, h2]⟩
        · exact ⟨fun h => absurd h (by decide), fun h => absurd h h1⟩
        · exact ⟨fun h => absurd h (by decide), fun h => absurd h.2 h2⟩
  · decide

/-- C3: in the completeness checker, the first candidate path whose
extraction yields a non-None value determines the result of field
extraction; the remaining paths have no effect, whatever they would
resolve to. -/
theorem extract_field_value_first_path_wins :
    ∀ (data : JSON) (p : String) (v s : JSON) (rest : List String),
      Checker.getNestedValue data p = some (v, s) → v ≠ JSON.null →
      Checker.tryPaths data (p :: rest) = some (v, s) ∧
      (∀ fieldName, lookupList Checker.fieldMappings fieldName = some (p :: rest) →
        Checker.extractFieldValue data fieldName = some (v, s)) := by
  intro data p v s rest hres hv
  have h1 : Checker.tryPaths data (p :: rest) = some (v, s) := by
    cases v with
    | null => exact absurd rfl hv
    | bool b => unfold Checker.tryPaths; rw [hres]
    | num q => unfold Checker.tryPaths; rw [hres]
    | str t => unfold Checker.tryPaths; rw [hres]
    | arr xs => unfold Checker.tryPaths; rw [hres]
    | obj fs => unfold Checker.tryPaths; rw [hres]
  refine ⟨h1, fun fieldName hmap => ?_⟩
  unfold Checker.extractFieldValue
  rw [hmap]
  exact h1

/-- C3 witness: with two resolvable contradictory paths, extraction returns
the value and score of the first. -/
theorem extract_field_value_first_path_wins_witness :
    Checker.tryPaths dataFirstWins ["a.b", "c.d"] = some (JSON.str "first", JSON.str "90") :=
  (extract_field_value_first_path_wins dataFirstWins "a.b" (JSON.str "first") (JSON.str "90")
    ["c.d"] rfl (fun h => JSON.noConfusion h)).1

/-- C4 counterexample: the completeness checker treats an extracted value of
0 as not found, so the claim that presence classification returns true for
the number 0 fails for the checker (the analyzer does classify 0 present). -/
theorem checker_numeric_zero_classified_missing :
    Checker.extractFieldValue dataZero "company_name" = none ∧
    (Checker.analyzeField dataZero [] "company_name" ["T", "A", "C"]).status = "missing" ∧
    Analyzer.pyPresent (some (JSON.num 0)) = true :=
  ⟨rfl, rfl, rfl⟩

/-- Helper: a resolved value that is a non-empty dict classifies present. -/
theorem isNonEmptyObj_pyPresent (v : Option JSON) :
    Analyzer.isNonEmptyObj v = true → Analyzer.pyPresent v = true := by
  cases v with
  | none => intro h; exact absurd h (by simp [Analyzer.isNonEmptyObj])
  | some w =>
    cases w with
    | obj fs =>
      cases fs with
      | nil => intro h; exact absurd h (by simp [Analyzer.isNonEmptyObj])
      | cons a l => intro _; rfl
    | null => intro h; exact absurd h (by simp [Analyzer.isNonEmptyObj])
    | bool b => intro h; exact absurd h (by simp [Analyzer.isNonEmptyObj])
    | num q => intro h; exact absurd h (by simp [Analyzer.isNonEmptyObj])
    | str t => intro h; exact absurd h (by simp [Analyzer.isNonEmptyObj])
    | arr xs => intro h; exact absurd h (by simp [Analyzer.isNonEmptyObj])

/-- C4, amended: the analyzer presence classifier follows the stated rules
exactly (absent only for a path miss, None, a string that strips to empty,
an empty list or an empty dict; in particular the number 0 is present),
while the completeness checker classifies by truthiness of the extracted
value, so it treats the number 0 as missing and a whitespace-only string as
complete. -/
theorem presence_rules_analyzer_and_checker :
    (∀ (cfg : Analyzer.Config) (data : JSON) (e : String) (pathList : List Analyzer.PathKey),
      lookupList cfg.fieldMapping e = some pathList → pathList ≠ [] →
      Analyzer.isElementPresent cfg data e =
        Analyzer.pyPresent (Analyzer.getValueFromPath data pathList)) ∧
    (∀ v : JSON, Analyzer.pyPresent (some v) = false ↔
      (v = JSON.null ∨ (∃ s2, v = JSON.str s2 ∧ stripIsEmpty s2 = true) ∨
       v = JSON.arr [] ∨ v = JSON.obj [])) ∧
    Analyzer.pyPresent none = false ∧
    Analyzer.pyPresent (some (JSON.num 0)) = true ∧
    (Checker.analyzeField dataZero [] "company_name" ["T", "A", "C"]).status = "missing" ∧
    (Checker.analyzeField dataWS [] "company_name" ["T", "A", "C"]).status = "complete" := by
  refine ⟨?_, ?_, rfl, rfl, rfl, rfl⟩
  · intro cfg data e pathList hmap hne
    simp only [Analyzer.isElementPresent, hmap]
    rw [if_neg (by simpa using hne)]
    by_cases hsp : (e == "100_pct_limit" &&
        Analyzer.isNonEmptyObj (Analyzer.getValueFromPath data pathList)) = true
    · rw [if_pos hsp]
      exact ((isNonEmptyObj_pyPresent _ ((Bool.and_eq_true _ _).mp hsp).2)).symm
    · rw [if_neg hsp]
  · intro v
    cases v with
    | null => simp [Analyzer.pyPresent]
    | bool b => simp [Analyzer.pyPresent]
    | num q => simp [Analyzer.pyPresent]
    | str t => simp [Analyzer.pyPresent]
    | arr xs => simp [Analyzer.pyPresent, List.isEmpty_iff]
    | obj fs => simp [Analyzer.pyPresent, List.isEmpty_iff]

/-- C4 witness: the analyzer equivalence instantiated at a mapped field
whose path resolves to the number 0. -/
theorem presence_rules_analyzer_and_checker_witness :
    Analyzer.isElementPresent cfgPresence dataPresence "x" =
      Analyzer.pyPresent (Analyzer.getValueFromPath dataPresence [Analyzer.PathKey.str "a"]) :=
  presence_rules_analyzer_and_checker.1 cfgPresence dataPresence "x"
    [Analyzer.PathKey.str "a"] rfl (by decide)

/-- C5: with square footage at most 0, the replacement-cost estimate keeps
the reported building value, raises exactly the MISSING_SQUARE_FOOTAGE
flag, and the cost formula is not applied (the result is independent of
construction, state, occupancy, age and sprinkler inputs). -/
theorem zero_square_footage_defaults_to_reported :
    ∀ (currentYear : ℚ) (p : Valuation.PropertyInputs), p.squareFootage ≤ 0 →
      (Valuation.valuationCore currentYear p).calculatedValue = p.buildingValue ∧
      (Valuation.valuationCore currentYear p).riskFlags = ["MISSING_SQUARE_FOOTAGE"] ∧
      "MISSING_SQUARE_FOOTAGE" ∈ (Valuation.valuationCore currentYear p).riskFlags := by
  intro currentYear p h
  unfold Valuation.valuationCore
  rw [if_pos h]
  exact ⟨rfl, rfl, List.mem_singleton.mpr rfl⟩

/-- C5 witness: concrete property with square footage 0 keeps its reported
value 750000 and gets only the MISSING_SQUARE_FOOTAGE flag. -/
theorem zero_square_footage_defaults_to_reported_witness :
    (Valuation.valuationCore 2024 propertyNoSqft).calculatedValue = 750000 ∧
    (Valuation.valuationCore 2024 propertyNoSqft).riskFlags = ["MISSING_SQUARE_FOOTAGE"] := by
  have h := zero_square_footage_defaults_to_reported 2024 propertyNoSqft (by norm_num [propertyNoSqft])
  exact ⟨h.1, h.2.1⟩

/-- C6: at the fixed inputs (10000 square feet, Frame, IL, Office, age in
the 0 to 10 bracket, unsprinklered) the calculated replacement value equals
10000 * 125 * 1.03 * 1.0 * 1.0 * 1.0 exactly. -/
theorem replacement_cost_fixed_inputs :
    (Valuation.valuationCore 2024 propertyFixed).matchedConstruction = "Frame" ∧
    (Valuation.valuationCore 2024 propertyFixed).matchedOccupancy = "Office" ∧
    (Valuation.valuationCore 2024 propertyFixed).buildingAge = 4 ∧
    (Valuation.valuationCore 2024 propertyFixed).calculatedValue
      = 10000 * 125 * (1.03 : ℚ) * 1 * 1 * 1 := by
  have hfc : Valuation.findClosestMatch "Frame"
      ["Frame", "Joisted Masonry", "Noncombustible", "Masonry Noncombustible",
       "Modified Fire Resistive", "Fire Resistive", "Wood Frame", "Masonry",
       "Steel", "Concrete", "Reinforced Concrete"] = "Frame" := rfl
  have hfo : Valuation.findClosestMatch "Office"
      ["Office", "Retail", "Warehouse", "Manufacturing", "Healthcare", "Hospitality",
       "Education", "Restaurant", "Industrial", "Residential", "Mixed Use", "Apartment",
       "Shopping Center", "Hotel", "Medical", "Storage"] = "Office" := rfl
  have hBase : Valuation.lookupD Valuation.constructionCosts "Frame" 125 = 125 := rfl
  have hIL : Valuation.lookupD Valuation.stateMultipliers "IL" 1 = (1.03 : ℚ) := rfl
  have hOcc : Valuation.lookupD Valuation.occupancyFactors "Office" 1 = (1.0 : ℚ) := rfl
  have hAge : Valuation.getAgeFactor 4 = (1.0 : ℚ) := rfl
  have hState : ¬(("IL" : String) = "") := by decide
  have hmapc : Valuation.constructionCosts.map Prod.fst =
      ["Frame", "Joisted Masonry", "Noncombustible", "Masonry Noncombustible",
       "Modified Fire Resistive", "Fire Resistive", "Wood Frame", "Masonry",
       "Steel", "Concrete", "Reinforced Concrete"] := rfl
  have hmapo : Valuation.occupancyFactors.map Prod.fst =
      ["Office", "Retail", "Warehouse", "Manufacturing", "Healthcare", "Hospitality",
       "Education", "Restaurant", "Industrial", "Residential", "Mixed Use", "Apartment",
       "Shopping Center", "Hotel", "Medical", "Storage"] := rfl
  simp only [Valuation.valuationCore, propertyFixed]
  norm_num [hmapc, hmapo, hfc, hfo, hBase, hIL, hOcc, hAge, hState]

/-- C7: recommendations list one message per non-empty missing list in the
fixed order appetite, triage, clearance, never exceed three entries, and
collapse to the single proceed message exactly when nothing is missing. -/
theorem next_steps_priority_and_cap :
    ∀ tm am cm : List String,
      (Analyzer.getNextSteps tm am cm).length ≤ 3 ∧
      Analyzer.getNextSteps tm am cm =
        (if am = [] ∧ tm = [] ∧ cm = [] then
          ["All required data is present. Proceed with underwriting review."]
        else
          (if am = [] then [] else
            ["Obtain missing appetite data: " ++ String.intercalate ", " am]) ++
          (if tm = [] then [] else
            ["Complete triage information: " ++ String.intercalate ", " tm]) ++
          (if cm = [] then [] else
            ["Provide clearance details: " ++ String.intercalate ", " cm])) := by
  intro tm am cm
  unfold Analyzer.getNextSteps
  rcases am with _ | ⟨a, am⟩ <;> rcases tm with _ | ⟨t, tm⟩ <;> rcases cm with _ | ⟨c, cm⟩ <;>
    simp [List.isEmpty]

/-- C8: a field named in the user modifications is analyzed, after the
modifications are applied, with the overridden value, confidence score 100
and source user_modified, whatever the original submission data and its
scores were. -/
theorem user_modification_confidence_hundred :
    ∀ (data data2 : JSON) (mods : List (String × JSON)) (fieldName : String)
      (newValue : JSON) (categories : List String),
      lookupList mods fieldName = some newValue →
      Checker.applyUserModifications data mods = some data2 →
      Checker.analyzeField data2 mods fieldName categories =
        { fieldName := fieldName, categories := categories, status := "complete",
          confidenceScore := 100, value := pyStr newValue, source := "user_modified" } := by
  intro data data2 mods fieldName newValue categories hmod _
  unfold Checker.analyzeField
  rw [hmod]

/-- C8 witness: overriding company_name on an empty submission and
re-analyzing yields the override with confidence 100 and source
user_modified. -/
theorem user_modification_confidence_hundred_witness :
    Checker.applyUserModifications (JSON.obj []) modsAcme = some dataAcme ∧
    Checker.analyzeField dataAcme modsAcme "company_name" ["T", "A", "C"] =
      { fieldName := "company_name", categories := ["T", "A", "C"], status := "complete",
        confidenceScore := 100, value := "Acme Corp", source := "user_modified" } :=
  ⟨rfl, user_modification_confidence_hundred (JSON.obj []) dataAcme modsAcme
    "company_name" (JSON.str "Acme Corp") ["T", "A", "C"] rfl rfl⟩

/-- C9: the analyzer path resolver agrees everywhere with the resolver
written from the specification wording: it descends through mappings by
existing key and through sequences by in-range integer index, and returns
NOT_FOUND in every other situation, including a scalar met mid-path; being
a total function, it raises nothing. -/
theorem get_value_from_path_matches_spec :
    ∀ (path : List Analyzer.PathKey) (data : JSON),
      Analyzer.getValueFromPath data path = Analyzer.resolveSpec data path := by
  intro path
  induction path with
  | nil => intro data; cases data <;> rfl
  | cons k rest ih =>
    intro data
    cases data with
    | null => cases k <;> rfl
    | bool b => cases k <;> rfl
    | num q => cases k <;> rfl
    | str t => cases k <;> rfl
    | obj fields =>
      cases k with
      | int i => rfl
      | str s =>
        show (match lookupList fields s with
              | some v2 => Analyzer.getValueFromPath v2 rest
              | none => none) =
             (match lookupList fields s with
              | some child => Analyzer.resolveSpec child rest
              | none => none)
        cases lookupList fields s with
        | none => rfl
        | some v2 => exact ih v2
    | arr xs =>
      cases k with
      | str s => rfl
      | int i =>
        show (if 0 ≤ i then
                match xs[i.toNat]? with
                | some v2 => Analyzer.getValueFromPath v2 rest
                | none => none
              else none) =
             (if 0 ≤ i ∧ i < (xs.length : Int) then
                match xs[i.toNat]? with
                | some child => Analyzer.resolveSpec child rest
                | none => none
              else none)
        by_cases h0 : 0 ≤ i
        · rw [if_pos h0]
          by_cases hlt : i < (xs.length : Int)
          · rw [if_pos ⟨h0, hlt⟩]
            cases hx : xs[i.toNat]? with
            | none => rfl
            | some v2 => exact ih v2
          · rw [if_neg (fun hc => hlt hc.2)]
            have hn : xs[i.toNat]? = none := by
              apply List.getElem?_eq_none
              omega
            rw [hn]
        · rw [if_neg h0, if_neg (fun hc => h0 hc.1)]

/-- C10: a field whose score path resolves to a falsy value (the number 0,
the empty string, None) gets accuracy score none rather than 0, and is
therefore excluded from field_level_accuracy, hence from the average
accuracy, instead of dragging the average down. -/
theorem falsy_score_excluded_from_accuracy :
    ∀ (cfg : Analyzer.Config) (data : JSON) (e : String)
      (pathList : List Analyzer.PathKey) (v : JSON),
      lookupList cfg.fieldMapping e = some pathList →
      pathList.getLast? = some (Analyzer.PathKey.str "value") →
      Analyzer.getValueFromPath data
        (pathList.dropLast ++ [Analyzer.PathKey.str "score"]) = some v →
      pyTruthy v = false →
      Analyzer.getAccuracyScore cfg data e = none ∧
      ∀ pr ∈ Analyzer.fieldLevelAccuracy cfg data, pr.1 ≠ e := by
  intro cfg data e pathList v hmap hlast hscore hfalsy
  have hne : pathList ≠ [] := by
    intro h
    rw [h] at hlast
    exact Option.noConfusion hlast
  have hacc : Analyzer.getAccuracyScore cfg data e = none := by
    simp only [Analyzer.getAccuracyScore, hmap]
    rw [if_neg (by simpa using hne)]
    rw [if_neg (by simp [hlast])]
    rw [hscore]
    simp [hfalsy]
  refine ⟨hacc, ?_⟩
  intro pr hpr
  obtain ⟨a, ha, hf⟩ := List.mem_filterMap.mp hpr
  intro hpe
  by_cases hp : Analyzer.isElementPresent cfg data a = true
  · rw [if_pos hp] at hf
    cases hsc : Analyzer.getAccuracyScore cfg data a with
    | none => rw [hsc] at hf; exact Option.noConfusion hf
    | some sc =>
      rw [hsc] at hf
      injection hf with hf2
      have hae : a = e := by rw [← hpe, ← hf2]
      rw [hae] at hsc
      rw [hacc] at hsc
      exact Option.noConfusion hsc
  · rw [if_neg hp] at hf
    exact Option.noConfusion hf

/-- C10 witness: a mapped field whose score node holds the number 0 has no
accuracy score and no entry in field_level_accuracy. -/
theorem falsy_score_excluded_from_accuracy_witness :
    Analyzer.getAccuracyScore cfgScore dataScoreZero "x" = none ∧
    ∀ pr ∈ Analyzer.fieldLevelAccuracy cfgScore dataScoreZero, pr.1 ≠ "x" :=
  falsy_score_excluded_from_accuracy cfgScore dataScoreZero "x"
    [Analyzer.PathKey.str "a", Analyzer.PathKey.str "value"] (JSON.num 0) rfl rfl rfl rfl
